import Mathlib

/-!
Verification of the booking-to-ride lifecycle of a ride-hailing service.

The definitions below are a shallow embedding of the JavaScript request
handlers (`driversController.js`, `usersController.js`, `ridesController.js`,
`adminsController.js`, and the shared `constants.js`).  MongoDB collections
are lists of records, `ObjectId`s are natural numbers, timestamps are natural
numbers (milliseconds), and `updateOne(filter, {$set: ...})` is `updateFirst`:
it rewrites the first record matching the filter and reports the matched
count (0 or 1).  Each handler returns its HTTP response (`Resp`) together
with the store after the call.
-/

namespace RideHailing

/-! ### Constants (constants.js) -/

namespace RIDE_STATUS

def REQUESTED : String := "requested"

def ACCEPTED : String := "accepted"

def ONGOING : String := "on going"

def COMPLETED : String := "completed"

def CANCELLED : String := "cancelled"

end RIDE_STATUS

namespace PAYMENT_STATUS

def PENDING : String := "pending"

def SUCCESS : String := "success"

end PAYMENT_STATUS

namespace VEHICLE_STATUS

def ACTIVE : String := "active"

def INACTIVE : String := "inactive"

end VEHICLE_STATUS

/-- The values of `VEHICLE_TYPE` in constants.js. -/
def VEHICLE_TYPES : List String := ["4 people car", "6 people car", "motor", "van"]

/-- The values of `PAYMENT_METHOD` in constants.js. -/
def PAYMENT_METHODS : List String := ["cash", "bank", "credit_card"]

/-! ### Records stored in the MongoDB collections -/

/-- A document of the `vehicles` collection (the fields the lifecycle
operations read). -/
structure Vehicle where
  _id : Nat
  driverId : Nat
  vehicleType : String
  status : String
deriving Repr, DecidableEq

/-- A document of the `bookings` collection. -/
structure Booking where
  _id : Nat
  userId : Nat
  pickupLocation : String
  dropoffLocation : String
  requestedVehicleType : Option String
  estimatedDistance : Int
  estimatedFare : Int
  createdAt : Nat
  status : String
  cancelledAt : Option Nat
deriving Repr, DecidableEq

/-- A document of the `rides` collection.  Fields added later by `$set`
(`startedAt`, `completedAt`, `cancelledAt`, `cancelledBy`, `duration`)
are `Option`s, absent (`none`) until set. -/
structure Ride where
  _id : Nat
  bookingId : Nat
  userId : Nat
  driverId : Nat
  vehicleId : Nat
  acceptedAt : Nat
  distance : Int
  fare : Int
  status : String
  startedAt : Option Nat
  completedAt : Option Nat
  cancelledAt : Option Nat
  cancelledBy : Option String
  duration : Option Nat
deriving Repr, DecidableEq

/-- A document of the `payments` collection. -/
structure Payment where
  rideId : Nat
  userId : Nat
  driverId : Nat
  amount : Int
  status : String
  createdAt : Nat
  paymentMethod : Option String
  transactionReferences : Option String
  paidAt : Option Nat
deriving Repr, DecidableEq

/-- A document of the `ratings` collection. -/
structure Rating where
  rideId : Nat
  userId : Nat
  driverId : Nat
  rating : Int
  comment : Option String
  createdAt : Nat
deriving Repr, DecidableEq

/-- A document of the `drivers` collection (the rating-aggregate fields
touched by `rateRide`). -/
structure Driver where
  _id : Nat
  ratingSum : Int
  ratingCount : Int
deriving Repr, DecidableEq

/-- The shared MongoDB store.  `nextId` supplies fresh `ObjectId`s for
inserts. -/
structure DB where
  bookings : List Booking
  rides : List Ride
  payments : List Payment
  ratings : List Rating
  drivers : List Driver
  vehicles : List Vehicle
  nextId : Nat
deriving Repr, DecidableEq

/-- An HTTP response: status code plus the `error` field of the JSON body
(`none` on success). -/
structure Resp where
  status : Nat
  error : Option String
deriving Repr, DecidableEq

/-! ### Store primitives -/

/-- `updateOne(filter, {$set: ...})`: rewrite the first record matching `p`
with `f` and report the matched count (`0` or `1`). -/
def updateFirst (p : α → Bool) (f : α → α) : List α → List α × Nat
  | [] => ([], 0)
  | x :: xs =>
    if p x then (f x :: xs, 1)
    else
      let r := updateFirst p f xs
      (x :: r.1, r.2)

/-- JavaScript truthiness of an optional string field: `undefined`, `null`
and `""` are falsy. -/
def strTruthy : Option String → Bool
  | none => false
  | some s => s != ""

/-! ### `acceptBooking` (driversController.js)

The handler runs two phases separated by `await` suspension points:
phase 1 performs the two reads (active vehicle, requested booking) and the
vehicle-type check; phase 2 performs the writes (booking-status update,
ride insert, payment insert).  Another request may be scheduled at any
`await`, in particular between the two phases. -/

/-- The status-transition write of `acceptBooking`: `updateOne` on the
`bookings` collection whose filter is `{ _id: bookingId }` alone, with
`$set { status: "accepted" }` (the handler ignores the reported matched
count). -/
def acceptBookingWrite (bookingId : Nat) (bs : List Booking) : List Booking × Nat :=
  updateFirst (fun b => b._id == bookingId)
    (fun b => { b with status := RIDE_STATUS.ACCEPTED }) bs

/-- Phase 1 of `acceptBooking`: read the driver's active vehicle, read the
booking with `{ _id, status: "requested" }`, and check the vehicle type
(`booking.requestedVehicleType && booking.requestedVehicleType !==
driverVehicle.vehicleType`, with JavaScript truthiness).  Returns the error
response, or the local variables (`driverVehicle`, `booking`) carried into
phase 2. -/
def acceptPhase1 (bookingId driverId : Nat) (db : DB) : Resp ⊕ (Vehicle × Booking) :=
  match db.vehicles.find? (fun v => v.driverId == driverId && v.status == VEHICLE_STATUS.ACTIVE) with
  | none => .inl { status := 400, error := some "No active vehicle found. Register a vehicle first." }
  | some driverVehicle =>
    match db.bookings.find? (fun b => b._id == bookingId && b.status == RIDE_STATUS.REQUESTED) with
    | none => .inl { status := 404, error := some "Booking not found or already accepted/cancelled." }
    | some booking =>
      if strTruthy booking.requestedVehicleType
          && booking.requestedVehicleType.getD "" != driverVehicle.vehicleType then
        .inl { status := 400, error := some "Your vehicle type does not match the booking request." }
      else
        .inr (driverVehicle, booking)

/-- Phase 2 of `acceptBooking`: the unconditional booking-status write
(`acceptBookingWrite`), then `insertOne` of the new ride (status
`accepted`, distance/fare copied from the booking) and `insertOne` of the
new payment (status `pending`, amount = the booking's estimated fare). -/
def acceptPhase2 (bookingId driverId now : Nat) (driverVehicle : Vehicle)
    (booking : Booking) (db : DB) : Resp × DB :=
  let w := acceptBookingWrite bookingId db.bookings
  let newRide : Ride := {
    _id := db.nextId
    bookingId := booking._id
    userId := booking.userId
    driverId := driverId
    vehicleId := driverVehicle._id
    acceptedAt := now
    distance := booking.estimatedDistance
    fare := booking.estimatedFare
    status := RIDE_STATUS.ACCEPTED
    startedAt := none, completedAt := none, cancelledAt := none
    cancelledBy := none, duration := none }
  let paymentData : Payment := {
    rideId := newRide._id
    userId := booking.userId
    driverId := driverId
    amount := booking.estimatedFare
    status := PAYMENT_STATUS.PENDING
    createdAt := now
    paymentMethod := none, transactionReferences := none, paidAt := none }
  ({ status := 200, error := none },
   { db with
       bookings := w.1
       rides := db.rides ++ [newRide]
       payments := db.payments ++ [paymentData]
       nextId := db.nextId + 1 })

/-- `acceptBooking` run without interleaving: phase 1, then (unless phase 1
produced an error response) phase 2. -/
def acceptBooking (bookingId driverId now : Nat) (db : DB) : Resp × DB :=
  match acceptPhase1 bookingId driverId db with
  | .inl e => (e, db)
  | .inr (driverVehicle, booking) => acceptPhase2 bookingId driverId now driverVehicle booking db

/-- Two concurrent `acceptBooking` requests for the same booking under the
schedule in which both phase-1 read sequences complete (at their `await`
suspension points) before either phase-2 write sequence runs.  Returns both
responses and the final store. -/
def acceptRace (bookingId d1 d2 now1 now2 : Nat) (db : DB) : Resp × Resp × DB :=
  match acceptPhase1 bookingId d1 db, acceptPhase1 bookingId d2 db with
  | .inr (v1, b1), .inr (v2, b2) =>
    let r1 := acceptPhase2 bookingId d1 now1 v1 b1 db
    let r2 := acceptPhase2 bookingId d2 now2 v2 b2 r1.2
    (r1.1, r2.1, r2.2)
  | .inl e1, .inr (v2, b2) =>
    let r2 := acceptPhase2 bookingId d2 now2 v2 b2 db
    (e1, r2.1, r2.2)
  | .inr (v1, b1), .inl e2 =>
    let r1 := acceptPhase2 bookingId d1 now1 v1 b1 db
    (r1.1, e2, r1.2)
  | .inl e1, .inl e2 => (e1, e2, db)

/-! ### Ride progression (driversController.js, ridesController.js,
adminsController.js) -/

/-- `startRide`: `updateOne` on `rides` with filter
`{ _id, driverId, status: "accepted" }`, `$set { status: "on going",
startedAt: now }`; 404 when the matched count is 0. -/
def startRide (rideId driverId now : Nat) (db : DB) : Resp × DB :=
  let w := updateFirst
    (fun r => r._id == rideId && r.driverId == driverId && r.status == RIDE_STATUS.ACCEPTED)
    (fun r => { r with status := RIDE_STATUS.ONGOING, startedAt := some now })
    db.rides
  let db1 := { db with rides := w.1 }
  if w.2 == 0 then
    ({ status := 404, error := some "Ride not found or not in a startable state." }, db1)
  else
    ({ status := 200, error := none }, db1)

/-- `completeRide`: `findOne` on `rides` with
`{ _id, driverId, status: "on going" }`; 404 when absent; otherwise compute
`duration = Math.floor((Date.now() - ride.startedAt) / 1000)` (whole
seconds) and `updateOne` with the same filter,
`$set { status: "completed", completedAt: now, duration }`. -/
def completeRide (rideId driverId now : Nat) (db : DB) : Resp × DB :=
  match db.rides.find?
      (fun r => r._id == rideId && r.driverId == driverId && r.status == RIDE_STATUS.ONGOING) with
  | none => ({ status := 404, error := some "Ride not found or not in progress" }, db)
  | some ride =>
    let duration := ride.startedAt.map (fun t => (now - t) / 1000)
    let w := updateFirst
      (fun r => r._id == rideId && r.driverId == driverId && r.status == RIDE_STATUS.ONGOING)
      (fun r => { r with status := RIDE_STATUS.COMPLETED, completedAt := some now,
                         duration := duration })
      db.rides
    let db1 := { db with rides := w.1 }
    if w.2 == 0 then
      ({ status := 404, error := some "Ride not found or not in progress." }, db1)
    else
      ({ status := 200, error := none }, db1)

/-- `cancelRide` (ridesController.js): `updateOne` on `rides` with filter
`{ _id, $or: [{userId: authId}, {driverId: authId}], status: "accepted" }`,
`$set { status: "cancelled", cancelledAt: now }`; 404 when the matched
count is 0. -/
def cancelRide (rideId authId now : Nat) (db : DB) : Resp × DB :=
  let w := updateFirst
    (fun r => r._id == rideId && (r.userId == authId || r.driverId == authId)
        && r.status == RIDE_STATUS.ACCEPTED)
    (fun r => { r with status := RIDE_STATUS.CANCELLED, cancelledAt := some now })
    db.rides
  let db1 := { db with rides := w.1 }
  if w.2 == 0 then
    ({ status := 404, error := some "Ride not found." }, db1)
  else
    ({ status := 200, error := none }, db1)

/-- `forceCancelRide` (adminsController.js): `updateOne` on `rides` with
filter `{ _id, status: { $in: ["accepted", "on going"] } }`,
`$set { status: "cancelled", cancelledAt: now, cancelledBy: "ADMIN" }`;
404 when the matched count is 0. -/
def forceCancelRide (rideId now : Nat) (db : DB) : Resp × DB :=
  let w := updateFirst
    (fun r => r._id == rideId
        && (r.status == RIDE_STATUS.ACCEPTED || r.status == RIDE_STATUS.ONGOING))
    (fun r => { r with status := RIDE_STATUS.CANCELLED, cancelledAt := some now,
                       cancelledBy := some "ADMIN" })
    db.rides
  let db1 := { db with rides := w.1 }
  if w.2 == 0 then
    ({ status := 404, error := some "Ride not found or cannot be cancelled" }, db1)
  else
    ({ status := 200, error := none }, db1)

/-! ### Booking mutation by the rider (usersController.js) -/

/-- The request body of `updateBooking`: each field is `undefined` (`none`)
or present. -/
structure BookingPatch where
  pickupLocation : Option String
  dropoffLocation : Option String
  requestedVehicleType : Option String
deriving Repr, DecidableEq

/-- The `$set` document `updateBooking` builds from the provided patch
fields. -/
def applyBookingPatch (patch : BookingPatch) (b : Booking) : Booking :=
  { b with
      pickupLocation := patch.pickupLocation.getD b.pickupLocation
      dropoffLocation := patch.dropoffLocation.getD b.dropoffLocation
      requestedVehicleType :=
        match patch.requestedVehicleType with
        | some t => some t
        | none => b.requestedVehicleType }

/-- The write step of `updateBooking`: `updateOne` on `bookings` with
filter `{ _id, userId, status: "requested" }` applying the provided
fields; 404 when the matched count is 0. -/
def updateBookingWrite (bookingId userId : Nat) (patch : BookingPatch) (db : DB) : Resp × DB :=
  let w := updateFirst
    (fun b => b._id == bookingId && b.userId == userId && b.status == RIDE_STATUS.REQUESTED)
    (applyBookingPatch patch)
    db.bookings
  let db1 := { db with bookings := w.1 }
  if w.2 == 0 then
    ({ status := 404, error := some "Booking not found" }, db1)
  else
    ({ status := 200, error := none }, db1)

/-- `updateBooking`: reject an invalid (truthy, out-of-enum) vehicle type
with 400; reject an empty patch with 400; otherwise perform the guarded
write (`updateBookingWrite`). -/
def updateBooking (bookingId userId : Nat) (patch : BookingPatch) (db : DB) : Resp × DB :=
  if strTruthy patch.requestedVehicleType
      && !(VEHICLE_TYPES.contains (patch.requestedVehicleType.getD "")) then
    ({ status := 400, error := some "Invalid vehicle type." }, db)
  else if patch.pickupLocation == none && patch.dropoffLocation == none
      && patch.requestedVehicleType == none then
    ({ status := 400, error := some "No valid fields provided for update" }, db)
  else
    updateBookingWrite bookingId userId patch db

/-- `cancelBooking`: `updateOne` on `bookings` with filter
`{ _id, userId, status: "requested" }`, `$set { status: "cancelled",
cancelledAt: now }`; 404 when the matched count is 0. -/
def cancelBooking (bookingId userId now : Nat) (db : DB) : Resp × DB :=
  let w := updateFirst
    (fun b => b._id == bookingId && b.userId == userId && b.status == RIDE_STATUS.REQUESTED)
    (fun b => { b with status := RIDE_STATUS.CANCELLED, cancelledAt := some now })
    db.bookings
  let db1 := { db with bookings := w.1 }
  if w.2 == 0 then
    ({ status := 404, error := some "Booking not found." }, db1)
  else
    ({ status := 200, error := none }, db1)

/-! ### Payment settlement and rating (usersController.js) -/

/-- The `$set` document `makePayment` writes to the pending payment. -/
def settlePaymentDoc (paymentMethod transactionReferences : Option String) (now : Nat)
    (p : Payment) : Payment :=
  { p with paymentMethod := paymentMethod
           transactionReferences := transactionReferences
           status := PAYMENT_STATUS.SUCCESS
           paidAt := some now }

/-- The write step of `makePayment`: `updateOne` on `payments` with filter
`{ rideId, userId, status: "pending" }`,
`$set { paymentMethod, transactionReferences, status: "success",
paidAt: now }`; 404 when the matched count is 0. -/
def settlePayment (rideId userId : Nat) (paymentMethod transactionReferences : Option String)
    (now : Nat) (db : DB) : Resp × DB :=
  let w := updateFirst
    (fun p => p.rideId == rideId && p.userId == userId && p.status == PAYMENT_STATUS.PENDING)
    (settlePaymentDoc paymentMethod transactionReferences now)
    db.payments
  let db1 := { db with payments := w.1 }
  if w.2 == 0 then
    ({ status := 404, error := some "Payment not found." }, db1)
  else
    ({ status := 200, error := none }, db1)

/-- `makePayment`: 400 when `paymentMethod` or `transactionReferences` is
missing (falsy), 400 when the method is outside `PAYMENT_METHOD`;
otherwise perform the guarded settlement write (`settlePayment`). -/
def makePayment (rideId userId : Nat) (paymentMethod transactionReferences : Option String)
    (now : Nat) (db : DB) : Resp × DB :=
  if !(strTruthy paymentMethod) || !(strTruthy transactionReferences) then
    ({ status := 400, error := some "Missing information." }, db)
  else if !(PAYMENT_METHODS.contains (paymentMethod.getD "")) then
    ({ status := 400, error := some "Invalid payment method." }, db)
  else
    settlePayment rideId userId paymentMethod transactionReferences now db

/-- The `$inc: { ratingCount: 1, ratingSum: rating }` update applied to a
driver document by `rateRide`. -/
def incDriverRating (rating : Int) (d : Driver) : Driver :=
  { d with ratingCount := d.ratingCount + 1, ratingSum := d.ratingSum + rating }

/-- `rateRide`: 400 unless the rating is an integer in [1,5]; 404 unless a
ride `{ _id, userId, status: "completed" }` exists; 400 when a rating for
`{ rideId, userId }` already exists; otherwise insert the rating
(`comment: comment || null`) and `$inc` the driver's `ratingCount` by 1 and
`ratingSum` by the rating. -/
def rateRide (rideId userId : Nat) (rating : Int) (comment : Option String)
    (now : Nat) (db : DB) : Resp × DB :=
  if rating < 1 || rating > 5 then
    ({ status := 400, error := some "Rating must be an integer between 1 and 5." }, db)
  else
    match db.rides.find?
        (fun r => r._id == rideId && r.userId == userId && r.status == RIDE_STATUS.COMPLETED) with
    | none => ({ status := 404, error := some "Ride not found, not completed, or access denied." }, db)
    | some ride =>
      match db.ratings.find? (fun rt => rt.rideId == rideId && rt.userId == userId) with
      | some _ => ({ status := 400, error := some "This ride has already been rated." }, db)
      | none =>
        let newRating : Rating := {
          rideId := rideId
          userId := userId
          driverId := ride.driverId
          rating := rating
          comment := if strTruthy comment then comment else none
          createdAt := now }
        let w := updateFirst (fun d => d._id == ride.driverId) (incDriverRating rating) db.drivers
        ({ status := 201, error := none },
         { db with ratings := db.ratings ++ [newRating], drivers := w.1 })

/-! ### Booking listing for drivers (driversController.js) -/

/-- A booking as returned to a driver: the `userId` field is removed by the
projection `{ userId: 0 }`. -/
structure BookingView where
  _id : Nat
  pickupLocation : String
  dropoffLocation : String
  requestedVehicleType : Option String
  estimatedDistance : Int
  estimatedFare : Int
  createdAt : Nat
  status : String
  cancelledAt : Option Nat
deriving Repr, DecidableEq

/-- The projection `{ userId: 0 }` applied to a booking. -/
def redactBooking (b : Booking) : BookingView := {
  _id := b._id
  pickupLocation := b.pickupLocation
  dropoffLocation := b.dropoffLocation
  requestedVehicleType := b.requestedVehicleType
  estimatedDistance := b.estimatedDistance
  estimatedFare := b.estimatedFare
  createdAt := b.createdAt
  status := b.status
  cancelledAt := b.cancelledAt }

/-- `getBooking` (driversController.js, `GET /drivers/booking`): find all
bookings with `{ status: "requested" }` under projection `{ userId: 0 }`;
404 with "No available bookings" when the result is empty, otherwise 200
with the list. -/
def getBooking (db : DB) : Resp × List BookingView :=
  let bookings := (db.bookings.filter (fun b => b.status == RIDE_STATUS.REQUESTED)).map redactBooking
  if bookings.length == 0 then
    ({ status := 404, error := some "No available bookings" }, [])
  else
    ({ status := 200, error := none }, bookings)

/-! ### Ride-lifecycle traces

The operations of the system that touch an existing ride's status. -/

/-- One invocation of a ride-status operation. -/
inductive Op where
  | start (rideId driverId now : Nat)
  | complete (rideId driverId now : Nat)
  | cancel (rideId authId now : Nat)
  | forceCancel (rideId now : Nat)
deriving Repr, DecidableEq

/-- The store after one operation (the response is discarded). -/
def applyOp : Op → DB → DB
  | .start rideId driverId now, db => (startRide rideId driverId now db).2
  | .complete rideId driverId now, db => (completeRide rideId driverId now db).2
  | .cancel rideId authId now, db => (cancelRide rideId authId now db).2
  | .forceCancel rideId now, db => (forceCancelRide rideId now db).2

/-- The ride with the given `_id` (the first match, as `findOne`). -/
def findRide (rideId : Nat) (db : DB) : Option Ride :=
  db.rides.find? (fun r => r._id == rideId)

/-- Every store observed while running a sequence of operations, the
initial one included. -/
def dbTrace : List Op → DB → List DB
  | [], db => [db]
  | op :: ops, db => db :: dbTrace ops (applyOp op db)

/-- The sequence of statuses a given ride takes while a sequence of
operations runs. -/
def statusTrace (rideId : Nat) (ops : List Op) (db : DB) : List String :=
  (dbTrace ops db).filterMap (fun d => (findRide rideId d).map Ride.status)

/-- The ride-status transitions the four operations can perform:
`accepted → on going` (startRide), `on going → completed` (completeRide),
`accepted → cancelled` (cancelRide), and `on going → cancelled`
(forceCancelRide). -/
def allowedStep (s s' : String) : Prop :=
  (s = RIDE_STATUS.ACCEPTED ∧ s' = RIDE_STATUS.ONGOING) ∨
  (s = RIDE_STATUS.ONGOING ∧ s' = RIDE_STATUS.COMPLETED) ∨
  (s = RIDE_STATUS.ACCEPTED ∧ s' = RIDE_STATUS.CANCELLED) ∨
  (s = RIDE_STATUS.ONGOING ∧ s' = RIDE_STATUS.CANCELLED)

/-- How one operation may change a single ride record: the `_id` is kept,
and the status is kept or moved along an `allowedStep`. -/
def RideEvolve (a b : Ride) : Prop :=
  b._id = a._id ∧ (b.status = a.status ∨ allowedStep a.status b.status)

/-! ### Driver rating aggregates -/

/-- The total `ratingSum` held in the `drivers` collection for a given
driver id. -/
def driverRatingSum (driverId : Nat) (l : List Driver) : Int :=
  ((l.filter (fun d => d._id == driverId)).map Driver.ratingSum).sum

/-- The total `ratingCount` held in the `drivers` collection for a given
driver id. -/
def driverRatingCount (driverId : Nat) (l : List Driver) : Int :=
  ((l.filter (fun d => d._id == driverId)).map Driver.ratingCount).sum

/-! ### Concrete stores used as test inputs -/

/-- A booking that has already been cancelled. -/
def cancelledBooking : Booking := {
  _id := 1, userId := 10, pickupLocation := "A", dropoffLocation := "B"
  requestedVehicleType := some "van", estimatedDistance := 10, estimatedFare := 24
  createdAt := 0, status := RIDE_STATUS.CANCELLED, cancelledAt := some 50 }

/-- A booking in status `requested`. -/
def bookingW : Booking := {
  _id := 1, userId := 10, pickupLocation := "A", dropoffLocation := "B"
  requestedVehicleType := some "van", estimatedDistance := 10, estimatedFare := 24
  createdAt := 0, status := RIDE_STATUS.REQUESTED, cancelledAt := none }

/-- An active van registered to driver 31. -/
def vehicleW : Vehicle :=
  { _id := 21, driverId := 31, vehicleType := "van", status := VEHICLE_STATUS.ACTIVE }

/-- An active van registered to driver 32. -/
def vehicleW2 : Vehicle :=
  { _id := 22, driverId := 32, vehicleType := "van", status := VEHICLE_STATUS.ACTIVE }

/-- A store with a single requested booking and two drivers holding active
vehicles of the requested type. -/
def dbRace : DB := {
  bookings := [bookingW], rides := [], payments := [], ratings := []
  drivers := [{ _id := 31, ratingSum := 0, ratingCount := 0 },
              { _id := 32, ratingSum := 0, ratingCount := 0 }]
  vehicles := [vehicleW, vehicleW2], nextId := 100 }

/-- A ride in status `accepted`. -/
def rideC3 : Ride := {
  _id := 5, bookingId := 90, userId := 8, driverId := 7, vehicleId := 70
  acceptedAt := 0, distance := 10, fare := 24, status := RIDE_STATUS.ACCEPTED
  startedAt := none, completedAt := none, cancelledAt := none
  cancelledBy := none, duration := none }

/-- A store with a single accepted ride. -/
def dbC3 : DB := {
  bookings := [], rides := [rideC3], payments := [], ratings := []
  drivers := [], vehicles := [], nextId := 100 }

/-- A store with no booking in status `requested` (its one booking is
cancelled). -/
def dbNoReq : DB := {
  bookings := [cancelledBooking], rides := [], payments := [], ratings := []
  drivers := [], vehicles := [], nextId := 100 }

/-- A ride in status `on going` owned by driver 31, started at 5000 ms. -/
def rideOngoing : Ride := {
  _id := 2, bookingId := 90, userId := 10, driverId := 31, vehicleId := 21
  acceptedAt := 100, distance := 10, fare := 24, status := RIDE_STATUS.ONGOING
  startedAt := some 5000, completedAt := none, cancelledAt := none
  cancelledBy := none, duration := none }

/-- A completed ride of user 10 with driver 31. -/
def rideCompleted : Ride := {
  _id := 3, bookingId := 91, userId := 10, driverId := 31, vehicleId := 21
  acceptedAt := 100, distance := 10, fare := 24, status := RIDE_STATUS.COMPLETED
  startedAt := some 1000, completedAt := some 2000, cancelledAt := none
  cancelledBy := none, duration := some 1 }

/-- An accepted ride of user 10 with driver 31. -/
def rideAccepted : Ride := {
  _id := 4, bookingId := 92, userId := 10, driverId := 31, vehicleId := 21
  acceptedAt := 100, distance := 10, fare := 24, status := RIDE_STATUS.ACCEPTED
  startedAt := none, completedAt := none, cancelledAt := none
  cancelledBy := none, duration := none }

/-- The pending payment for ride 3. -/
def paymentP3 : Payment := {
  rideId := 3, userId := 10, driverId := 31, amount := 24
  status := PAYMENT_STATUS.PENDING, createdAt := 100
  paymentMethod := none, transactionReferences := none, paidAt := none }

/-- The pending payment for ride 4. -/
def paymentP4 : Payment := {
  rideId := 4, userId := 10, driverId := 31, amount := 24
  status := PAYMENT_STATUS.PENDING, createdAt := 100
  paymentMethod := none, transactionReferences := none, paidAt := none }

/-- A validly-formed update patch touching only the pickup location. -/
def patchW : BookingPatch :=
  { pickupLocation := some "C", dropoffLocation := none, requestedVehicleType := none }

/-- A populated store: one requested booking, an ongoing, a completed and
an accepted ride, their pending payments, one driver record, two active
vehicles. -/
def dbW : DB := {
  bookings := [bookingW]
  rides := [rideOngoing, rideCompleted, rideAccepted]
  payments := [paymentP3, paymentP4]
  ratings := []
  drivers := [{ _id := 31, ratingSum := 0, ratingCount := 0 }]
  vehicles := [vehicleW, vehicleW2]
  nextId := 100 }

/-! ### Lemmas about the store primitives -/

theorem updateFirst_of_find?_none {α : Type} {p : α → Bool} {f : α → α} :
    ∀ {l : List α}, l.find? p = none → updateFirst p f l = (l, 0) := by
  intro l
  induction l with
  | nil => intro _; rfl
  | cons x xs ih =>
    intro h
    cases hx : p x with
    | true => simp [List.find?_cons, hx] at h
    | false =>
      simp only [List.find?_cons, hx] at h
      simp [updateFirst, hx, ih h]

theorem updateFirst_snd_eq_one {α : Type} {p : α → Bool} {f : α → α} :
    ∀ {l : List α} {a : α}, l.find? p = some a → (updateFirst p f l).2 = 1 := by
  intro l
  induction l with
  | nil => intro a h; simp at h
  | cons x xs ih =>
    intro a h
    cases hx : p x with
    | true => simp [updateFirst, hx]
    | false =>
      simp only [List.find?_cons, hx] at h
      simp [updateFirst, hx, ih h]

theorem updateFirst_forall₂ {α : Type} (p : α → Bool) (f : α → α) :
    ∀ l : List α,
      List.Forall₂ (fun a b => b = a ∨ (p a = true ∧ b = f a)) l (updateFirst p f l).1 := by
  intro l
  induction l with
  | nil => exact List.Forall₂.nil
  | cons x xs ih =>
    cases hx : p x with
    | true =>
      simp only [updateFirst, hx]
      exact List.Forall₂.cons (Or.inr ⟨hx, rfl⟩) (List.forall₂_same.2 (fun a _ => Or.inl rfl))
    | false =>
      simp only [updateFirst, hx, Bool.false_eq_true, if_false]
      exact List.Forall₂.cons (Or.inl rfl) ih

theorem forall₂_getElem? {α β : Type} {S : α → β → Prop} :
    ∀ {l : List α} {l' : List β}, List.Forall₂ S l l' →
      ∀ {j : Nat} {a : α}, l[j]? = some a → ∃ b, l'[j]? = some b ∧ S a b := by
  intro l l' h
  induction h with
  | nil => intro j a ha; simp at ha
  | @cons x y xs ys hxy _ ih =>
    intro j a ha
    cases j with
    | zero =>
      simp only [List.getElem?_cons_zero, Option.some.injEq] at ha
      exact ⟨y, by simp, ha ▸ hxy⟩
    | succ n =>
      simp only [List.getElem?_cons_succ] at ha ⊢
      exact ih ha

theorem find?_none_of_forall₂ {α β : Type} {S : α → β → Prop} {q : α → Bool} {s : β → Bool}
    (hq : ∀ a b, S a b → q a = s b) :
    ∀ {l : List α} {l' : List β}, List.Forall₂ S l l' →
      l.find? q = none → l'.find? s = none := by
  intro l l' h
  induction h with
  | nil => intro _; rfl
  | @cons x y xs ys hxy _ ih =>
    intro hn
    cases hx : q x with
    | true => simp [List.find?_cons, hx] at hn
    | false =>
      simp only [List.find?_cons, hx] at hn
      have hy : s y = false := (hq x y hxy) ▸ hx
      simp [List.find?_cons, hy, ih hn]

theorem find?_some_of_forall₂ {α β : Type} {S : α → β → Prop} {q : α → Bool} {s : β → Bool}
    (hq : ∀ a b, S a b → q a = s b) :
    ∀ {l : List α} {l' : List β}, List.Forall₂ S l l' →
      ∀ {a : α}, l.find? q = some a → ∃ b, l'.find? s = some b ∧ S a b := by
  intro l l' h
  induction h with
  | nil => intro a ha; simp at ha
  | @cons x y xs ys hxy _ ih =>
    intro a ha
    cases hx : q x with
    | true =>
      simp only [List.find?_cons, hx, Option.some.injEq] at ha
      have hy : s y = true := (hq x y hxy) ▸ hx
      exact ⟨y, by simp [List.find?_cons, hy], ha ▸ hxy⟩
    | false =>
      simp only [List.find?_cons, hx] at ha
      have hy : s y = false := (hq x y hxy) ▸ hx
      obtain ⟨b, hb, hsb⟩ := ih ha
      exact ⟨b, by simp [List.find?_cons, hy, hb], hsb⟩

theorem updateFirst_mem_updated {α : Type} {p : α → Bool} {f : α → α} :
    ∀ {l : List α} {a : α}, l.find? p = some a → f a ∈ (updateFirst p f l).1 := by
  intro l
  induction l with
  | nil => intro a h; simp at h
  | cons x xs ih =>
    intro a h
    cases hx : p x with
    | true =>
      simp only [List.find?_cons, hx, Option.some.injEq] at h
      subst h
      simp [updateFirst, hx]
    | false =>
      simp only [List.find?_cons, hx] at h
      simp [updateFirst, hx]
      exact Or.inr (ih h)

theorem updateFirst_find?_none_after {α : Type} {p : α → Bool} {f : α → α}
    (hf : ∀ a, p a = true → p (f a) = false) :
    ∀ {l : List α}, l.countP p ≤ 1 → (updateFirst p f l).1.find? p = none := by
  intro l
  induction l with
  | nil => intro _; rfl
  | cons x xs ih =>
    intro hc
    cases hx : p x with
    | true =>
      have hcc := List.countP_cons_of_pos p xs hx
      have hxs : xs.countP p = 0 := by omega
      have hall : ∀ a ∈ xs, ¬ p a = true := List.countP_eq_zero.1 hxs
      have htail : xs.find? p = none := List.find?_eq_none.2 hall
      simp [updateFirst, hx, List.find?_cons, hf x hx, htail]
    | false =>
      have hcc := List.countP_cons_of_neg p xs (a := x) (by simp [hx])
      have hxs : xs.countP p ≤ 1 := by omega
      simp [updateFirst, hx, List.find?_cons, ih hxs]

theorem updateFirst_find?_key {α : Type} {p q : α → Bool} {f : α → α}
    (hpq : ∀ a, p a = true → q a = true) (hfq : ∀ a, q (f a) = q a) :
    ∀ {l : List α} {a : α}, l.countP q ≤ 1 → l.find? p = some a →
      (updateFirst p f l).1.find? q = some (f a) := by
  intro l
  induction l with
  | nil => intro a _ h; simp at h
  | cons x xs ih =>
    intro a hc h
    cases hx : p x with
    | true =>
      simp only [List.find?_cons, hx, Option.some.injEq] at h
      subst h
      have hq1 : q (f x) = true := (hfq x).trans (hpq x hx)
      simp [updateFirst, hx, List.find?_cons, hq1]
    | false =>
      simp only [List.find?_cons, hx] at h
      have hmem : a ∈ xs := List.mem_of_find?_eq_some h
      have hqa : q a = true := hpq a (List.find?_some h)
      have hpos : 0 < xs.countP q := List.countP_pos_iff.2 ⟨a, hmem, hqa⟩
      have hqx : q x = false := by
        cases hqx : q x with
        | false => rfl
        | true =>
          have := List.countP_cons_of_pos q xs hqx
          exfalso; omega
      have hcc := List.countP_cons_of_neg q xs (a := x) (by simp [hqx])
      have hxs : xs.countP q ≤ 1 := by omega
      simp [updateFirst, hx, List.find?_cons, hqx, ih hxs h]

theorem find?_append_of_none {α : Type} {p : α → Bool} :
    ∀ {l l' : List α}, l.find? p = none → (l ++ l').find? p = l'.find? p := by
  intro l
  induction l with
  | nil => intro l' _; rfl
  | cons x xs ih =>
    intro l' h
    cases hx : p x with
    | true => simp [List.find?_cons, hx] at h
    | false =>
      simp only [List.find?_cons, hx] at h
      simp [List.find?_cons, hx, ih h]

theorem exists_of_updateFirst_snd_ne_zero {α : Type} {p : α → Bool} {f : α → α} :
    ∀ {l : List α}, (updateFirst p f l).2 ≠ 0 → ∃ a ∈ l, p a = true := by
  intro l
  induction l with
  | nil => intro h; exact absurd rfl h
  | cons x xs ih =>
    intro h
    cases hx : p x with
    | true => exact ⟨x, List.mem_cons_self x xs, hx⟩
    | false =>
      simp only [updateFirst, hx, Bool.false_eq_true, if_false] at h
      obtain ⟨a, ha, hpa⟩ := ih h
      exact ⟨a, List.mem_cons_of_mem x ha, hpa⟩

theorem find?_ne_none_of_exists {α : Type} {p : α → Bool} {l : List α}
    (h : ∃ a ∈ l, p a = true) : l.find? p ≠ none := by
  intro hnone
  obtain ⟨a, ha, hpa⟩ := h
  exact absurd hpa (by simpa using List.find?_eq_none.1 hnone a ha)

theorem updateFirst_getElem?_of_not_pred {α : Type} {p : α → Bool} {f : α → α} {l : List α}
    {j : Nat} {b : α} (hj : l[j]? = some b) (hb : p b = false) :
    (updateFirst p f l).1[j]? = some b := by
  obtain ⟨b', hb', hrel⟩ := forall₂_getElem? (updateFirst_forall₂ p f l) hj
  rcases hrel with rfl | ⟨hp, rfl⟩
  · exact hb'
  · rw [hp] at hb; cases hb

/-! ### Inversion of acceptBooking's phase 1 -/

theorem acceptPhase1_inl_status {bookingId driverId : Nat} {db : DB} {e : Resp}
    (h : acceptPhase1 bookingId driverId db = .inl e) : e.status = 400 ∨ e.status = 404 := by
  unfold acceptPhase1 at h
  split at h
  · simp only [Sum.inl.injEq] at h
    exact Or.inl (by rw [← h])
  · split at h
    · simp only [Sum.inl.injEq] at h
      exact Or.inr (by rw [← h])
    · split at h
      · simp only [Sum.inl.injEq] at h
        exact Or.inl (by rw [← h])
      · simp at h

theorem acceptPhase1_inr_inv {bookingId driverId : Nat} {db : DB} {dv : Vehicle}
    {booking : Booking}
    (h : acceptPhase1 bookingId driverId db = .inr (dv, booking)) :
    db.vehicles.find? (fun v => v.driverId == driverId && v.status == VEHICLE_STATUS.ACTIVE)
      = some dv ∧
    db.bookings.find? (fun b => b._id == bookingId && b.status == RIDE_STATUS.REQUESTED)
      = some booking := by
  unfold acceptPhase1 at h
  split at h
  · simp at h
  next v heqv =>
    split at h
    · simp at h
    next b heqb =>
      split at h
      · simp at h
      · simp only [Sum.inr.injEq, Prod.mk.injEq] at h
        obtain ⟨h1, h2⟩ := h
        subst h1; subst h2
        exact ⟨heqv, heqb⟩

/-! ### Driver rating aggregates under the `$inc` write -/

theorem driverAgg_updateFirst (driverId : Nat) (rating : Int) :
    ∀ l : List Driver, (l.find? (fun d => d._id == driverId)).isSome = true →
      driverRatingSum driverId (updateFirst (fun d => d._id == driverId)
          (incDriverRating rating) l).1
        = driverRatingSum driverId l + rating ∧
      driverRatingCount driverId (updateFirst (fun d => d._id == driverId)
          (incDriverRating rating) l).1
        = driverRatingCount driverId l + 1 := by
  intro l
  induction l with
  | nil => intro h; simp at h
  | cons x xs ih =>
    intro h
    cases hx : (x._id == driverId) with
    | true =>
      constructor
      · simp [updateFirst, hx, driverRatingSum, List.filter_cons, incDriverRating]
        ring
      · simp [updateFirst, hx, driverRatingCount, List.filter_cons, incDriverRating]
        ring
    | false =>
      have h' : (xs.find? (fun d => d._id == driverId)).isSome = true := by
        simpa [List.find?_cons, hx] using h
      obtain ⟨h1, h2⟩ := ih h'
      constructor
      · simpa [updateFirst, hx, driverRatingSum, List.filter_cons] using h1
      · simpa [updateFirst, hx, driverRatingCount, List.filter_cons] using h2

/-! ### How each ride-status operation evolves a single ride record -/

theorem rideEvolve_refl (l : List Ride) : List.Forall₂ RideEvolve l l :=
  List.forall₂_same.2 (fun _ _ => ⟨rfl, Or.inl rfl⟩)

theorem applyOp_forall₂ (op : Op) (db : DB) :
    List.Forall₂ RideEvolve db.rides (applyOp op db).rides := by
  cases op with
  | start rideId driverId now =>
    simp only [applyOp, startRide]
    split
    all_goals
      refine List.Forall₂.imp ?_ (updateFirst_forall₂ _ _ db.rides)
      intro a b hab
      rcases hab with rfl | ⟨hp, rfl⟩
      · exact ⟨rfl, Or.inl rfl⟩
      · simp only [Bool.and_eq_true, beq_iff_eq] at hp
        exact ⟨rfl, Or.inr (Or.inl ⟨hp.2, rfl⟩)⟩
  | complete rideId driverId now =>
    cases hfind : db.rides.find?
        (fun r => r._id == rideId && r.driverId == driverId
          && r.status == RIDE_STATUS.ONGOING) with
    | none => simpa [applyOp, completeRide, hfind] using rideEvolve_refl db.rides
    | some ride =>
      simp only [applyOp, completeRide, hfind]
      split
      all_goals
        refine List.Forall₂.imp ?_ (updateFirst_forall₂ _ _ db.rides)
        intro a b hab
        rcases hab with rfl | ⟨hp, rfl⟩
        · exact ⟨rfl, Or.inl rfl⟩
        · simp only [Bool.and_eq_true, beq_iff_eq] at hp
          exact ⟨rfl, Or.inr (Or.inr (Or.inl ⟨hp.2, rfl⟩))⟩
  | cancel rideId authId now =>
    simp only [applyOp, cancelRide]
    split
    all_goals
      refine List.Forall₂.imp ?_ (updateFirst_forall₂ _ _ db.rides)
      intro a b hab
      rcases hab with rfl | ⟨hp, rfl⟩
      · exact ⟨rfl, Or.inl rfl⟩
      · simp only [Bool.and_eq_true, beq_iff_eq] at hp
        exact ⟨rfl, Or.inr (Or.inr (Or.inr (Or.inl ⟨hp.2, rfl⟩)))⟩
  | forceCancel rideId now =>
    simp only [applyOp, forceCancelRide]
    split
    all_goals
      refine List.Forall₂.imp ?_ (updateFirst_forall₂ _ _ db.rides)
      intro a b hab
      rcases hab with rfl | ⟨hp, rfl⟩
      · exact ⟨rfl, Or.inl rfl⟩
      · simp only [Bool.and_eq_true, Bool.or_eq_true, beq_iff_eq] at hp
        rcases hp.2 with hacc | hon
        · exact ⟨rfl, Or.inr (Or.inr (Or.inr (Or.inl ⟨hacc, rfl⟩)))⟩
        · exact ⟨rfl, Or.inr (Or.inr (Or.inr (Or.inr ⟨hon, rfl⟩)))⟩

theorem findRide_applyOp_none {rideId : Nat} (op : Op) {db : DB}
    (h : findRide rideId db = none) : findRide rideId (applyOp op db) = none := by
  simp only [findRide] at h ⊢
  exact find?_none_of_forall₂ (q := fun r => r._id == rideId) (s := fun r => r._id == rideId)
    (fun a b hab => by show (a._id == rideId) = (b._id == rideId); rw [hab.1])
    (applyOp_forall₂ op db) h

theorem findRide_applyOp_some {rideId : Nat} (op : Op) {db : DB} {r : Ride}
    (h : findRide rideId db = some r) :
    ∃ r', findRide rideId (applyOp op db) = some r' ∧
      (r'.status = r.status ∨ allowedStep r.status r'.status) := by
  simp only [findRide] at h ⊢
  obtain ⟨r', h', he⟩ :=
    find?_some_of_forall₂ (q := fun r => r._id == rideId) (s := fun r => r._id == rideId)
      (fun a b hab => by show (a._id == rideId) = (b._id == rideId); rw [hab.1])
      (applyOp_forall₂ op db) h
  exact ⟨r', h', he.2⟩

theorem statusTrace_head_of_some {rideId : Nat} {db : DB} {r : Ride}
    (hf : findRide rideId db = some r) (ops : List Op) :
    ∃ t, statusTrace rideId ops db = r.status :: t := by
  cases ops with
  | nil => exact ⟨[], by simp [statusTrace, dbTrace, hf]⟩
  | cons op rest =>
    refine ⟨(dbTrace rest (applyOp op db)).filterMap
      (fun d => (findRide rideId d).map Ride.status), ?_⟩
    simp [statusTrace, dbTrace, hf]

/-- C3 counterexample: starting from a store holding one accepted ride, the
operation sequence startRide-then-forceCancelRide makes the ride take the
status sequence (accepted, on going, cancelled), which is a subsequence of
neither (accepted, on going, completed) nor (accepted, cancelled): the
admin force-cancel cancels the ride out of the `on going` state, refuting
the claim that a ride is cancelled only from the `accepted` state. -/
theorem ride_cancelled_from_ongoing :
    statusTrace 5 [Op.start 5 7 1000, Op.forceCancel 5 2000] dbC3
      = [RIDE_STATUS.ACCEPTED, RIDE_STATUS.ONGOING, RIDE_STATUS.CANCELLED] ∧
    ¬ List.Sublist [RIDE_STATUS.ACCEPTED, RIDE_STATUS.ONGOING, RIDE_STATUS.CANCELLED]
        [RIDE_STATUS.ACCEPTED, RIDE_STATUS.ONGOING, RIDE_STATUS.COMPLETED] ∧
    ¬ List.Sublist [RIDE_STATUS.ACCEPTED, RIDE_STATUS.ONGOING, RIDE_STATUS.CANCELLED]
        [RIDE_STATUS.ACCEPTED, RIDE_STATUS.CANCELLED] := by
  refine ⟨by decide, fun h => ?_, fun h => ?_⟩
  · exact absurd (h.subset (show RIDE_STATUS.CANCELLED
      ∈ [RIDE_STATUS.ACCEPTED, RIDE_STATUS.ONGOING, RIDE_STATUS.CANCELLED] by decide)) (by decide)
  · exact absurd (h.subset (show RIDE_STATUS.ONGOING
      ∈ [RIDE_STATUS.ACCEPTED, RIDE_STATUS.ONGOING, RIDE_STATUS.CANCELLED] by decide)) (by decide)

/-- C3 (amended): along every sequence of lifecycle operations (startRide,
completeRide, cancelRide by rider/driver, admin forceCancelRide), the
sequence of statuses any ride takes moves only along the transitions
accepted → on going, on going → completed, accepted → cancelled, and
on going → cancelled (the last one performed only by the admin
force-cancel): a ride never moves backward and never skips a state, but it
can be cancelled from `on going` by the admin. -/
theorem ride_status_forward_only (rideId : Nat) (ops : List Op) (db : DB) :
    List.Chain' (fun s s' => s = s' ∨ allowedStep s s') (statusTrace rideId ops db) := by
  induction ops generalizing db with
  | nil =>
    cases hf : findRide rideId db <;> simp [statusTrace, dbTrace, hf]
  | cons op rest ih =>
    cases hf : findRide rideId db with
    | none =>
      have htr : statusTrace rideId (op :: rest) db
          = statusTrace rideId rest (applyOp op db) := by
        simp [statusTrace, dbTrace, hf]
      rw [htr]
      exact ih _
    | some r =>
      obtain ⟨r', h', he⟩ := findRide_applyOp_some op hf
      have htr : statusTrace rideId (op :: rest) db
          = r.status :: statusTrace rideId rest (applyOp op db) := by
        simp [statusTrace, dbTrace, hf]
      rw [htr, List.chain'_cons']
      refine ⟨?_, ih _⟩
      intro s hs
      obtain ⟨t, ht⟩ := statusTrace_head_of_some h' rest
      rw [ht] at hs
      simp only [List.head?_cons, Option.mem_def, Option.some.injEq] at hs
      subst hs
      exact he.imp (fun h => h.symm) id

/-- C1: the write that moves the booking from `requested` to `accepted` in
acceptBooking is not a conditional compare-and-set.  Against a store whose
only booking is already cancelled, the write still matches it (one row
affected, not zero) and overwrites its status to `accepted`, refuting the
claim that for every store state with a non-`requested` booking the write
leaves the booking unchanged and reports zero rows affected. -/
theorem accept_write_matches_cancelled_booking :
    cancelledBooking.status ≠ RIDE_STATUS.REQUESTED ∧
    (acceptBookingWrite 1 [cancelledBooking]).2 = 1 ∧
    (acceptBookingWrite 1 [cancelledBooking]).1
      = [{ cancelledBooking with status := RIDE_STATUS.ACCEPTED }] := by
  exact ⟨by decide, rfl, rfl⟩

/-- C2: two concurrent acceptBooking calls against the same requested
booking, under the schedule where both phase-1 read sequences run before
either phase-2 write sequence (each `await` is a suspension point), both
return 200 and create two rides and two payments for the one booking,
refuting the claim that exactly one call succeeds and exactly one ride and
one payment are created. -/
theorem accept_race_two_rides :
    (acceptRace 1 31 32 1000 1001 dbRace).1.status = 200 ∧
    (acceptRace 1 31 32 1000 1001 dbRace).2.1.status = 200 ∧
    ((acceptRace 1 31 32 1000 1001 dbRace).2.2.rides.filter
        (fun r => r.bookingId == 1)).length = 2 ∧
    ((acceptRace 1 31 32 1000 1001 dbRace).2.2.payments).length = 2 := by
  exact ⟨rfl, rfl, rfl, rfl⟩

/-- C9 counterexample: on a store with no booking in status `requested`,
the driver booking listing does not return the empty collection: it fails
with 404 and the error "No available bookings". -/
theorem open_bookings_empty_is_error :
    (dbNoReq.bookings.filter (fun b => b.status == RIDE_STATUS.REQUESTED)) = [] ∧
    (getBooking dbNoReq).1.status = 404 ∧
    (getBooking dbNoReq).1.error = some "No available bookings" ∧
    (getBooking dbNoReq).1.status ≠ 200 := by
  exact ⟨rfl, rfl, rfl, by decide⟩

/-- C9 (amended): when at least one booking is in status `requested`, the
driver booking listing returns exactly the requested bookings, in store
order, each with the rider's `userId` redacted, with no pagination,
ordering, or vehicle-type filtering; when none is, it fails with 404 and
"No available bookings" instead of returning the empty collection. -/
theorem open_bookings_requested_redacted (db : DB) :
    ((db.bookings.filter (fun b => b.status == RIDE_STATUS.REQUESTED)) ≠ [] →
      getBooking db = ({ status := 200, error := none },
        (db.bookings.filter (fun b => b.status == RIDE_STATUS.REQUESTED)).map redactBooking)) ∧
    ((db.bookings.filter (fun b => b.status == RIDE_STATUS.REQUESTED)) = [] →
      getBooking db = ({ status := 404, error := some "No available bookings" }, [])) := by
  constructor
  · intro h
    simp only [getBooking]
    split
    next hcond =>
      rw [beq_iff_eq, List.length_map, List.length_eq_zero] at hcond
      exact absurd hcond h
    next hcond => rfl
  · intro h
    simp only [getBooking]
    split
    next hcond => rfl
    next hcond =>
      rw [h] at hcond
      simp at hcond

/-- Witness for C9's amended theorem: on the populated store the listing
returns exactly the one requested booking, redacted; on the store with no
requested booking it returns the 404 error. -/
theorem open_bookings_requested_redacted_witness :
    getBooking dbW = ({ status := 200, error := none }, [redactBooking bookingW]) ∧
    getBooking dbNoReq = ({ status := 404, error := some "No available bookings" }, []) := by
  exact ⟨(open_bookings_requested_redacted dbW).1 (by decide),
         (open_bookings_requested_redacted dbNoReq).2 rfl⟩

/-- C4: whenever acceptBooking succeeds (HTTP 200), exactly one ride is
appended, with status `accepted` and distance/fare copied from the
requested booking that was found, and exactly one payment is appended for
that ride, with status `pending` and amount equal to the ride's fare; on
every failing path neither collection changes. -/
theorem acceptBooking_creates_ride_and_payment (bookingId driverId now : Nat) (db : DB) :
    ((acceptBooking bookingId driverId now db).1.status = 200 →
      ∃ booking,
        db.bookings.find? (fun b => b._id == bookingId && b.status == RIDE_STATUS.REQUESTED)
          = some booking ∧
        ∃ r p,
          (acceptBooking bookingId driverId now db).2.rides = db.rides ++ [r] ∧
          (acceptBooking bookingId driverId now db).2.payments = db.payments ++ [p] ∧
          r.status = RIDE_STATUS.ACCEPTED ∧
          r.bookingId = booking._id ∧
          r.distance = booking.estimatedDistance ∧
          r.fare = booking.estimatedFare ∧
          p.rideId = r._id ∧
          p.userId = booking.userId ∧
          p.status = PAYMENT_STATUS.PENDING ∧
          p.amount = r.fare) ∧
    ((acceptBooking bookingId driverId now db).1.status ≠ 200 →
      (acceptBooking bookingId driverId now db).2.rides = db.rides ∧
      (acceptBooking bookingId driverId now db).2.payments = db.payments) := by
  cases h1 : acceptPhase1 bookingId driverId db with
  | inl e =>
    have hres : acceptBooking bookingId driverId now db = (e, db) := by
      unfold acceptBooking; rw [h1]
    rw [hres]
    constructor
    · intro h200
      rcases acceptPhase1_inl_status h1 with h4 | h4 <;> (rw [h4] at h200; cases h200)
    · intro _
      exact ⟨rfl, rfl⟩
  | inr vb =>
    obtain ⟨dv, booking⟩ := vb
    obtain ⟨hv, hb⟩ := acceptPhase1_inr_inv h1
    have hres : acceptBooking bookingId driverId now db
        = acceptPhase2 bookingId driverId now dv booking db := by
      unfold acceptBooking; rw [h1]
    rw [hres]
    constructor
    · intro _
      exact ⟨booking, hb, _, _, rfl, rfl, rfl, rfl, rfl, rfl, rfl, rfl, rfl, rfl⟩
    · intro hne
      exact absurd rfl hne

/-- Witness for C4: on the populated store, driver 31 accepting booking 1
succeeds and appends exactly one ride and one payment. -/
theorem acceptBooking_creates_ride_and_payment_witness :
    ((acceptBooking 1 31 999 dbW).2.rides).length = dbW.rides.length + 1 ∧
    ((acceptBooking 1 31 999 dbW).2.payments).length = dbW.payments.length + 1 := by
  obtain ⟨hsucc, -⟩ := acceptBooking_creates_ride_and_payment 1 31 999 dbW
  obtain ⟨b, hb, r, p, hr, hp, -⟩ := hsucc rfl
  rw [hr, hp]
  simp

/-- C5: a booking is mutable only while `requested` and only by its owning
rider: updateBooking and cancelBooking succeed only when a booking with
the given id, owned by the caller and in status `requested` exists; when no
such booking exists (missing, not owned, or no longer requested — cases the
response does not distinguish) a validly-formed update and any cancel
return the single 404 not-found response and leave the store unchanged;
and a booking whose status is not `requested` is never edited by either
operation on any path. -/
theorem booking_mutable_only_requested_by_owner (bookingId userId now : Nat)
    (patch : BookingPatch) (db : DB) :
    ((updateBooking bookingId userId patch db).1.status = 200 →
      ∃ b ∈ db.bookings, (b._id == bookingId && b.userId == userId
        && b.status == RIDE_STATUS.REQUESTED) = true) ∧
    ((strTruthy patch.requestedVehicleType
        && !(VEHICLE_TYPES.contains (patch.requestedVehicleType.getD ""))) = false →
      (patch.pickupLocation == none && patch.dropoffLocation == none
        && patch.requestedVehicleType == none) = false →
      db.bookings.find? (fun b => b._id == bookingId && b.userId == userId
        && b.status == RIDE_STATUS.REQUESTED) = none →
      updateBooking bookingId userId patch db
        = ({ status := 404, error := some "Booking not found" }, db)) ∧
    ((cancelBooking bookingId userId now db).1.status = 200 →
      ∃ b ∈ db.bookings, (b._id == bookingId && b.userId == userId
        && b.status == RIDE_STATUS.REQUESTED) = true) ∧
    (db.bookings.find? (fun b => b._id == bookingId && b.userId == userId
        && b.status == RIDE_STATUS.REQUESTED) = none →
      cancelBooking bookingId userId now db
        = ({ status := 404, error := some "Booking not found." }, db)) ∧
    (∀ (j : Nat) (b : Booking), db.bookings[j]? = some b →
      b.status ≠ RIDE_STATUS.REQUESTED →
      (updateBooking bookingId userId patch db).2.bookings[j]? = some b ∧
      (cancelBooking bookingId userId now db).2.bookings[j]? = some b) := by
  refine ⟨?_, ?_, ?_, ?_, ?_⟩
  · intro h200
    unfold updateBooking at h200
    split at h200
    · simp at h200
    · split at h200
      · simp at h200
      · simp only [updateBookingWrite] at h200
        split at h200
        · simp at h200
        next hcond =>
          have hne : (updateFirst
              (fun b => b._id == bookingId && b.userId == userId
                && b.status == RIDE_STATUS.REQUESTED)
              (applyBookingPatch patch) db.bookings).2 ≠ 0 := by
            simpa using hcond
          exact exists_of_updateFirst_snd_ne_zero hne
  · intro hvt hne hfind
    have hw := updateFirst_of_find?_none (f := applyBookingPatch patch) hfind
    simp only [updateBooking, hvt, hne, Bool.false_eq_true, if_false, updateBookingWrite, hw]
    rfl
  · intro h200
    simp only [cancelBooking] at h200
    split at h200
    · simp at h200
    next hcond =>
      have hne : (updateFirst
          (fun b => b._id == bookingId && b.userId == userId
            && b.status == RIDE_STATUS.REQUESTED)
          (fun b => { b with status := RIDE_STATUS.CANCELLED, cancelledAt := some now })
          db.bookings).2 ≠ 0 := by
        simpa using hcond
      exact exists_of_updateFirst_snd_ne_zero hne
  · intro hfind
    have hw := updateFirst_of_find?_none
      (f := fun b => { b with status := RIDE_STATUS.CANCELLED, cancelledAt := some now }) hfind
    simp only [cancelBooking, hw]
    rfl
  · intro j b hj hbs
    have hpb : (b._id == bookingId && b.userId == userId
        && b.status == RIDE_STATUS.REQUESTED) = false := by
      cases hb2 : b.status == RIDE_STATUS.REQUESTED with
      | true => exact absurd (by simpa using hb2) hbs
      | false => simp [hb2]
    constructor
    · unfold updateBooking
      split
      · exact hj
      · split
        · exact hj
        · simp only [updateBookingWrite]
          split <;> exact updateFirst_getElem?_of_not_pred hj hpb
    · simp only [cancelBooking]
      split <;> exact updateFirst_getElem?_of_not_pred hj hpb

/-- Witness for C5: booking 99 does not exist in the populated store, so a
validly-formed update patch and a cancel both return the 404 response and
leave the store unchanged. -/
theorem booking_mutable_only_requested_by_owner_witness :
    updateBooking 99 10 patchW dbW
      = ({ status := 404, error := some "Booking not found" }, dbW) ∧
    cancelBooking 99 10 777 dbW
      = ({ status := 404, error := some "Booking not found." }, dbW) := by
  obtain ⟨-, h2, -, h4, -⟩ :=
    booking_mutable_only_requested_by_owner 99 10 777 patchW dbW
  exact ⟨h2 rfl rfl rfl, h4 rfl⟩

/-- C6: makePayment rejects an out-of-enum payment method with 400 and an
unchanged store; with a valid method and reference it succeeds exactly
when a payment keyed by (rideId, userId) with status `pending` exists, and
on success that payment is set to `success` with method, reference and
paidAt recorded; when the store holds at most one payment for the key,
settling the same ride a second time fails with the 404 not-found response
and changes nothing. -/
theorem payment_settles_once (rideId userId : Nat) (m ref : Option String)
    (now now2 : Nat) (db : DB) :
    (strTruthy m = true → strTruthy ref = true →
      PAYMENT_METHODS.contains (m.getD "") = false →
      makePayment rideId userId m ref now db
        = ({ status := 400, error := some "Invalid payment method." }, db)) ∧
    (strTruthy m = true → strTruthy ref = true →
      PAYMENT_METHODS.contains (m.getD "") = true →
      (((makePayment rideId userId m ref now db).1.status = 200) ↔
        ∃ p ∈ db.payments, (p.rideId == rideId && p.userId == userId
          && p.status == PAYMENT_STATUS.PENDING) = true) ∧
      ((makePayment rideId userId m ref now db).1.status = 200 →
        (∃ p' ∈ (makePayment rideId userId m ref now db).2.payments,
          p'.rideId = rideId ∧ p'.userId = userId ∧ p'.status = PAYMENT_STATUS.SUCCESS ∧
          p'.paymentMethod = m ∧ p'.transactionReferences = ref ∧ p'.paidAt = some now) ∧
        (db.payments.countP (fun p => p.rideId == rideId && p.userId == userId) ≤ 1 →
          makePayment rideId userId m ref now2 ((makePayment rideId userId m ref now db).2)
            = ({ status := 404, error := some "Payment not found." },
               (makePayment rideId userId m ref now db).2)))) := by
  constructor
  · intro hm href hbad
    simp only [makePayment, hm, href, hbad, Bool.not_true, Bool.not_false, Bool.or_self]
    rfl
  · intro hm href hgood
    have hval : ∀ (n : Nat) (d : DB),
        makePayment rideId userId m ref n d = settlePayment rideId userId m ref n d := by
      intro n d
      simp only [makePayment, hm, href, hgood, Bool.not_true, Bool.or_self]
      rfl
    rw [hval]
    cases hf : db.payments.find? (fun p => p.rideId == rideId && p.userId == userId
        && p.status == PAYMENT_STATUS.PENDING) with
    | none =>
      have hw := updateFirst_of_find?_none (f := settlePaymentDoc m ref now) hf
      have hres : settlePayment rideId userId m ref now db
          = ({ status := 404, error := some "Payment not found." }, db) := by
        simp only [settlePayment, hw]
        rfl
      rw [hres]
      constructor
      · constructor
        · intro h200
          exact absurd h200 (by simp)
        · intro hex
          exact absurd hf (find?_ne_none_of_exists hex)
      · intro h200
        exact absurd h200 (by simp)
    | some p0 =>
      have h1 : (updateFirst (fun p => p.rideId == rideId && p.userId == userId
          && p.status == PAYMENT_STATUS.PENDING) (settlePaymentDoc m ref now)
          db.payments).2 = 1 := updateFirst_snd_eq_one hf
      have hres : settlePayment rideId userId m ref now db
          = ({ status := 200, error := none },
             { db with payments := (updateFirst (fun p => p.rideId == rideId
                 && p.userId == userId && p.status == PAYMENT_STATUS.PENDING)
                 (settlePaymentDoc m ref now) db.payments).1 }) := by
        simp only [settlePayment, h1]
        rfl
      rw [hres]
      have hp0raw := List.find?_some hf
      have hp0 := hp0raw
      simp only [Bool.and_eq_true, beq_iff_eq] at hp0
      refine ⟨⟨fun _ => ⟨p0, List.mem_of_find?_eq_some hf, hp0raw⟩, fun _ => rfl⟩,
        fun _ => ⟨?_, ?_⟩⟩
      · refine ⟨settlePaymentDoc m ref now p0, updateFirst_mem_updated hf, ?_, ?_, rfl, rfl, rfl, rfl⟩
        · exact hp0.1.1
        · exact hp0.1.2
      · intro hcount
        rw [hval]
        have hflip : ∀ p : Payment, (p.rideId == rideId && p.userId == userId
            && p.status == PAYMENT_STATUS.PENDING) = true →
            ((settlePaymentDoc m ref now p).rideId == rideId
              && (settlePaymentDoc m ref now p).userId == userId
              && (settlePaymentDoc m ref now p).status == PAYMENT_STATUS.PENDING) = false := by
          intro p _
          have hsp : (PAYMENT_STATUS.SUCCESS == PAYMENT_STATUS.PENDING) = false := by decide
          simp [settlePaymentDoc, hsp]
        have hcount' : db.payments.countP (fun p => p.rideId == rideId && p.userId == userId
            && p.status == PAYMENT_STATUS.PENDING) ≤ 1 := by
          refine le_trans (List.countP_mono_left ?_) hcount
          intro p _ hp
          simp only [Bool.and_eq_true] at hp ⊢
          exact ⟨hp.1.1, hp.1.2⟩
        have hnone2 : ((updateFirst (fun p => p.rideId == rideId && p.userId == userId
            && p.status == PAYMENT_STATUS.PENDING) (settlePaymentDoc m ref now)
            db.payments).1).find? (fun p => p.rideId == rideId && p.userId == userId
            && p.status == PAYMENT_STATUS.PENDING) = none :=
          updateFirst_find?_none_after hflip hcount'
        have hw2 := updateFirst_of_find?_none (f := settlePaymentDoc m ref now2) hnone2
        simp only [settlePayment, hw2]
        rfl

/-- Witness for C6: settling the pending payment of ride 3 succeeds; the
second settlement of the same ride fails with the 404 response and leaves
the store unchanged. -/
theorem payment_settles_once_witness :
    (makePayment 3 10 (some "cash") (some "TX1") 700 dbW).1.status = 200 ∧
    makePayment 3 10 (some "cash") (some "TX1") 701
        ((makePayment 3 10 (some "cash") (some "TX1") 700 dbW).2)
      = ({ status := 404, error := some "Payment not found." },
         (makePayment 3 10 (some "cash") (some "TX1") 700 dbW).2) := by
  obtain ⟨-, h⟩ := payment_settles_once 3 10 (some "cash") (some "TX1") 700 701 dbW
  obtain ⟨hiff, heff⟩ := h rfl rfl (by decide)
  have h200 : (makePayment 3 10 (some "cash") (some "TX1") 700 dbW).1.status = 200 :=
    hiff.2 ⟨paymentP3, by decide, by decide⟩
  obtain ⟨-, htwice⟩ := heff h200
  exact ⟨h200, htwice (by decide)⟩

/-- C7: rateRide succeeds exactly when the rating is an integer in [1,5],
a completed ride with the given id owned by the calling rider exists, and
no rating for (rideId, userId) exists yet; on success exactly one rating
is appended (for the found ride's driver, with the given rating) and the
driver's aggregate ratingSum/ratingCount grow by exactly the rating and by
one; a second rateRide for the same (ride, rider) fails with 400 and
changes nothing, so the aggregates change by exactly one rating's worth in
total. -/
theorem rating_single_per_ride (rideId userId : Nat) (rating : Int) (comment : Option String)
    (now now2 : Nat) (db : DB) (rating2 : Int) (comment2 : Option String) :
    (((rateRide rideId userId rating comment now db).1.status = 201) ↔
      ((rating < 1 || rating > 5) = false ∧
       (∃ r ∈ db.rides, (r._id == rideId && r.userId == userId
         && r.status == RIDE_STATUS.COMPLETED) = true) ∧
       db.ratings.find? (fun rt => rt.rideId == rideId && rt.userId == userId) = none)) ∧
    ((rateRide rideId userId rating comment now db).1.status = 201 →
      ∀ ride, db.rides.find? (fun r => r._id == rideId && r.userId == userId
          && r.status == RIDE_STATUS.COMPLETED) = some ride →
        ((rateRide rideId userId rating comment now db).2.ratings
            = db.ratings ++ [{
                rideId := rideId, userId := userId, driverId := ride.driverId,
                rating := rating, comment := if strTruthy comment then comment else none,
                createdAt := now }]) ∧
        ((db.drivers.find? (fun d => d._id == ride.driverId)).isSome = true →
          driverRatingSum ride.driverId (rateRide rideId userId rating comment now db).2.drivers
            = driverRatingSum ride.driverId db.drivers + rating ∧
          driverRatingCount ride.driverId
              (rateRide rideId userId rating comment now db).2.drivers
            = driverRatingCount ride.driverId db.drivers + 1)) ∧
    ((rateRide rideId userId rating comment now db).1.status = 201 →
      (rateRide rideId userId rating2 comment2 now2
          ((rateRide rideId userId rating comment now db).2)).1.status = 400 ∧
      (rateRide rideId userId rating2 comment2 now2
          ((rateRide rideId userId rating comment now db).2)).2
        = (rateRide rideId userId rating comment now db).2) := by
  cases hcond : (rating < 1 || rating > 5) with
  | true =>
    have hres : rateRide rideId userId rating comment now db
        = ({ status := 400, error := some "Rating must be an integer between 1 and 5." }, db) := by
      simp only [rateRide, hcond]
      rfl
    rw [hres]
    refine ⟨⟨fun h => by simp at h, ?_⟩, fun h => by simp at h, fun h => by simp at h⟩
    rintro ⟨h1, -, -⟩
    simp at h1
  | false =>
    cases hfr : db.rides.find? (fun r => r._id == rideId && r.userId == userId
        && r.status == RIDE_STATUS.COMPLETED) with
    | none =>
      have hres : rateRide rideId userId rating comment now db
          = ({ status := 404, error := some "Ride not found, not completed, or access denied." },
             db) := by
        simp only [rateRide, hcond, hfr]
        rfl
      rw [hres]
      refine ⟨⟨fun h => by simp at h, ?_⟩, fun h => by simp at h, fun h => by simp at h⟩
      rintro ⟨-, hex, -⟩
      exact absurd hfr (find?_ne_none_of_exists hex)
    | some ride =>
      cases hft : db.ratings.find? (fun rt => rt.rideId == rideId && rt.userId == userId) with
      | some rt0 =>
        have hres : rateRide rideId userId rating comment now db
            = ({ status := 400, error := some "This ride has already been rated." }, db) := by
          simp only [rateRide, hcond, hfr, hft]
          rfl
        rw [hres]
        refine ⟨⟨fun h => by simp at h, ?_⟩, fun h => by simp at h, fun h => by simp at h⟩
        rintro ⟨-, -, hnone⟩
        simp at hnone
      | none =>
        have hfrp := List.find?_some hfr
        have hres : rateRide rideId userId rating comment now db
            = ({ status := 201, error := none },
               { db with
                   ratings := db.ratings ++ [{
                     rideId := rideId, userId := userId,
                     driverId := ride.driverId, rating := rating,
                     comment := if strTruthy comment then comment else none, createdAt := now }],
                   drivers := (updateFirst (fun d => d._id == ride.driverId)
                     (incDriverRating rating) db.drivers).1 }) := by
          simp only [rateRide, hcond, hfr, hft]
          rfl
        rw [hres]
        refine ⟨⟨fun _ => ⟨rfl, ⟨ride, List.mem_of_find?_eq_some hfr, hfrp⟩, rfl⟩,
          fun _ => rfl⟩, ?_, ?_⟩
        · intro _ ride' hfr'
          obtain rfl : ride = ride' := Option.some.inj hfr'
          refine ⟨rfl, ?_⟩
          intro hds
          exact driverAgg_updateFirst ride.driverId rating db.drivers hds
        · intro _
          cases hcond2 : (rating2 < 1 || rating2 > 5) with
          | true =>
            constructor
            · simp only [rateRide, hcond2]
              rfl
            · simp only [rateRide, hcond2]
              rfl
          | false =>
            have hfind2 : (db.ratings ++ [({
                rideId := rideId, userId := userId,
                driverId := ride.driverId, rating := rating,
                comment := if strTruthy comment then comment else none,
                createdAt := now } : Rating)]).find?
                  (fun rt => rt.rideId == rideId && rt.userId == userId)
                = some {
                    rideId := rideId, userId := userId, driverId := ride.driverId,
                    rating := rating, comment := if strTruthy comment then comment else none,
                    createdAt := now } := by
              rw [find?_append_of_none hft]
              simp [List.find?_cons]
            constructor
            · simp only [rateRide, hcond2, hfr, hfind2]
              rfl
            · simp only [rateRide, hcond2, hfr, hfind2]
              rfl

/-- Witness for C7: rating the completed ride 3 succeeds, the second
rating attempt fails with 400, and driver 31's aggregates grow by exactly
5 and 1. -/
theorem rating_single_per_ride_witness :
    (rateRide 3 10 5 (some "nice") 800 dbW).1.status = 201 ∧
    (rateRide 3 10 4 none 801 ((rateRide 3 10 5 (some "nice") 800 dbW).2)).1.status = 400 ∧
    driverRatingSum 31 (rateRide 3 10 5 (some "nice") 800 dbW).2.drivers
      = driverRatingSum 31 dbW.drivers + 5 ∧
    driverRatingCount 31 (rateRide 3 10 5 (some "nice") 800 dbW).2.drivers
      = driverRatingCount 31 dbW.drivers + 1 := by
  obtain ⟨hiff, heff, htwice⟩ := rating_single_per_ride 3 10 5 (some "nice") 800 801 dbW 4 none
  have h201 : (rateRide 3 10 5 (some "nice") 800 dbW).1.status = 201 :=
    hiff.2 ⟨rfl, ⟨rideCompleted, by decide, by decide⟩, rfl⟩
  obtain ⟨-, hagg⟩ := heff h201 rideCompleted rfl
  obtain ⟨hsum, hcnt⟩ := hagg rfl
  exact ⟨h201, (htwice h201).1, hsum, hcnt⟩

/-- C8: completeRide succeeds exactly when a ride with the given id, owned
by the calling driver and in status `on going` exists; on success that ride
becomes `completed`, `completedAt` is set to now, and the stored duration
is the elapsed time now − startedAt converted to whole seconds; in every
other case it returns the 404 not-found response with the store unchanged;
and no record the filter does not match is changed. -/
theorem completeRide_transition (rideId driverId now : Nat) (db : DB) :
    (db.rides.find? (fun r => r._id == rideId && r.driverId == driverId
        && r.status == RIDE_STATUS.ONGOING) = none →
      completeRide rideId driverId now db
        = ({ status := 404, error := some "Ride not found or not in progress" }, db)) ∧
    (∀ ride, db.rides.find? (fun r => r._id == rideId && r.driverId == driverId
        && r.status == RIDE_STATUS.ONGOING) = some ride →
      (completeRide rideId driverId now db).1.status = 200 ∧
      (db.rides.countP (fun r => r._id == rideId) ≤ 1 →
        findRide rideId (completeRide rideId driverId now db).2
          = some { ride with
                   status := RIDE_STATUS.COMPLETED, completedAt := some now,
                   duration := ride.startedAt.map (fun t => (now - t) / 1000) }) ∧
      (∀ (j : Nat) (b : Ride), db.rides[j]? = some b →
        (b._id == rideId && b.driverId == driverId
          && b.status == RIDE_STATUS.ONGOING) = false →
        (completeRide rideId driverId now db).2.rides[j]? = some b)) := by
  constructor
  · intro hnone
    simp only [completeRide, hnone]
  · intro ride hfr
    have h1 : (updateFirst (fun r => r._id == rideId && r.driverId == driverId
        && r.status == RIDE_STATUS.ONGOING)
        (fun r => { r with
                    status := RIDE_STATUS.COMPLETED, completedAt := some now,
                    duration := ride.startedAt.map (fun t => (now - t) / 1000) })
        db.rides).2 = 1 := updateFirst_snd_eq_one hfr
    have hres : completeRide rideId driverId now db
        = ({ status := 200, error := none },
           { db with rides := (updateFirst (fun r => r._id == rideId
               && r.driverId == driverId && r.status == RIDE_STATUS.ONGOING)
               (fun r => { r with
                           status := RIDE_STATUS.COMPLETED, completedAt := some now,
                           duration := ride.startedAt.map (fun t => (now - t) / 1000) })
               db.rides).1 }) := by
      simp only [completeRide, hfr, h1]
      rfl
    rw [hres]
    refine ⟨rfl, ?_, ?_⟩
    · intro hcount
      have hkey := updateFirst_find?_key
        (p := fun r : Ride => r._id == rideId && r.driverId == driverId
          && r.status == RIDE_STATUS.ONGOING)
        (q := fun r : Ride => r._id == rideId)
        (f := fun r : Ride => { r with
                         status := RIDE_STATUS.COMPLETED, completedAt := some now,
                         duration := ride.startedAt.map (fun t => (now - t) / 1000) })
        (fun a ha => by
          simp only [Bool.and_eq_true] at ha
          exact ha.1.1)
        (fun a => rfl)
        hcount hfr
      simpa [findRide] using hkey
    · intro j b hj hb
      exact updateFirst_getElem?_of_not_pred hj hb

/-- Witness for C8: driver 31 completing the ongoing ride 2 at 15000 ms
succeeds; the ride becomes completed with duration (15000 − 5000)/1000 =
10 seconds. -/
theorem completeRide_transition_witness :
    (completeRide 2 31 15000 dbW).1.status = 200 ∧
    findRide 2 (completeRide 2 31 15000 dbW).2
      = some { rideOngoing with
               status := RIDE_STATUS.COMPLETED, completedAt := some 15000,
               duration := some 10 } := by
  obtain ⟨-, hsome⟩ := completeRide_transition 2 31 15000 dbW
  obtain ⟨h200, hfind, -⟩ := hsome rideOngoing rfl
  have h2 := hfind (by decide)
  rw [h2]
  exact ⟨h200, rfl⟩

/-- C10: payment settlement is decoupled from the ride's lifecycle state:
makePayment reads and writes only the payments collection, so its response
and its effect on payments are identical on any two stores differing only
in rides; cancelRide never touches payments; consequently a pending
payment keyed by (rideId, userId) is still settleable after any
cancelRide, including one that cancels the paid-for ride itself. -/
theorem payment_decoupled_from_ride (rideId userId : Nat) (m ref : Option String)
    (now now0 now1 : Nat) (db : DB) (rides2 : List Ride) (cancelId authId : Nat) :
    ((makePayment rideId userId m ref now { db with rides := rides2 }).1
        = (makePayment rideId userId m ref now db).1 ∧
      (makePayment rideId userId m ref now { db with rides := rides2 }).2.payments
        = (makePayment rideId userId m ref now db).2.payments) ∧
    ((cancelRide cancelId authId now0 db).2.payments = db.payments) ∧
    (strTruthy m = true → strTruthy ref = true →
      PAYMENT_METHODS.contains (m.getD "") = true →
      (∃ p ∈ db.payments, (p.rideId == rideId && p.userId == userId
        && p.status == PAYMENT_STATUS.PENDING) = true) →
      (makePayment rideId userId m ref now1 ((cancelRide cancelId authId now0 db).2)).1.status
        = 200) := by
  have hcancel : (cancelRide cancelId authId now0 db).2.payments = db.payments := by
    simp only [cancelRide]
    split <;> rfl
  refine ⟨?_, hcancel, ?_⟩
  · have hp : ({ db with rides := rides2 } : DB).payments = db.payments := rfl
    simp only [makePayment, settlePayment, hp]
    split
    · exact ⟨rfl, rfl⟩
    · split
      · exact ⟨rfl, rfl⟩
      · split
        · exact ⟨rfl, rfl⟩
        · exact ⟨rfl, rfl⟩
  · intro hm href hgood hex
    have hval : makePayment rideId userId m ref now1 ((cancelRide cancelId authId now0 db).2)
        = settlePayment rideId userId m ref now1 ((cancelRide cancelId authId now0 db).2) := by
      simp only [makePayment, hm, href, hgood, Bool.not_true, Bool.or_self]
      rfl
    rw [hval]
    cases hf : ((cancelRide cancelId authId now0 db).2).payments.find?
        (fun p => p.rideId == rideId && p.userId == userId
          && p.status == PAYMENT_STATUS.PENDING) with
    | none =>
      rw [hcancel] at hf
      exact absurd hf (find?_ne_none_of_exists hex)
    | some p0 =>
      have h1 := updateFirst_snd_eq_one (f := settlePaymentDoc m ref now1) hf
      simp only [settlePayment, h1]
      rfl

/-- Witness for C10: after the rider cancels the accepted ride 4, its
pending payment is still settleable and the settlement succeeds. -/
theorem payment_decoupled_from_ride_witness :
    (makePayment 4 10 (some "cash") (some "TX1") 600 ((cancelRide 4 10 500 dbW).2)).1.status
      = 200 := by
  obtain ⟨-, -, h⟩ := payment_decoupled_from_ride 4 10 (some "cash") (some "TX1")
    0 500 600 dbW [] 4 10
  exact h rfl rfl (by decide) ⟨paymentP4, by decide, by decide⟩

end RideHailing
